import Mathlib

/-!
Shallow embedding of the request-serving loop of `tauri-plugin-screenshot-hd`
(src/lib.rs): the lazy window-resolution cache, the path dispatch of
`serve_loop`, and the synchronous-over-asynchronous capture bridge
`take_screenshot` (both the macOS version and the non-macOS stub).
Every request handler is modelled as a pure function that also returns a
trace of the primitive invocations it performed, in order.
-/

/-- Encoded image bytes (Rust `Vec<u8>`). -/
abbrev Bytes := List Nat

/-- Plugin configuration (source `Config`, lines 44-52). -/
structure Config where
  host : String
  port : Nat
  window_label : String
deriving DecidableEq, Repr

/-- Source `DEFAULT_PORT` (line 40). -/
def DEFAULT_PORT : Nat := 21988

/-- Source `DEFAULT_HOST` (line 41). -/
def DEFAULT_HOST : String := "127.0.0.1"

/-- Source `Config::default` (lines 54-62). -/
def Config.default : Config :=
  { host := DEFAULT_HOST, port := DEFAULT_PORT, window_label := "main" }

/-- Behavioural model of a resolved `tauri::WebviewWindow`: the outcomes its
primitives would produce for the current request. `evalRes s` is the result of
`window.eval(s)`; `withWebviewRes` is the result of `window.with_webview(...)`;
`snapshotCallback = some r` means the native completion callback fires with
result `r` within the 10-second ceiling, `none` means it does not fire in
time. -/
structure Window where
  evalRes : String → Except String Unit
  withWebviewRes : Except String Unit
  snapshotCallback : Option (Except String Bytes)

/-- The fixed ceiling, in seconds, of `rx.recv_timeout` in `take_screenshot`
(source line 306: `Duration::from_secs(10)`). -/
def SNAPSHOT_TIMEOUT_SECS : Nat := 10

/-- Display text of `std::sync::mpsc::RecvTimeoutError::Timeout`, the `e`
interpolated into the timeout message on source line 307. -/
def recvTimeoutDisplay : String := "timed out waiting on channel"

/-- macOS `take_screenshot` (source lines 228-308): issue the asynchronous
snapshot request, then block on the one-shot channel with the 10-second
ceiling. A `with_webview` failure is wrapped as `with_webview: _`; a missing
callback within the ceiling yields `snapshot timeout: _`; otherwise the
callback result (PNG bytes or native error message) is returned unchanged. -/
def take_screenshot (w : Window) : Except String Bytes :=
  match w.withWebviewRes with
  | .error e => .error ("with_webview: " ++ e)
  | .ok _ =>
    match w.snapshotCallback with
    | none => .error ("snapshot timeout: " ++ recvTimeoutDisplay)
    | some r => r

/-- The fixed error text of the non-macOS `take_screenshot` stub (source
lines 314-316; the Rust string continuation splices the two lines). -/
def non_macos_msg : String :=
  "Native screenshots are only supported on macOS (WKWebView.takeSnapshot). "
    ++ "On other platforms, use the WebDriver screenshot endpoint instead."

/-- Non-macOS `take_screenshot` (source lines 312-317): unconditionally an
error. -/
def take_screenshot_non_macos (_w : Window) : Except String Bytes :=
  .error non_macos_msg

/-- HTTP method of a request. The source never inspects it. -/
inductive Method
  | get
  | post
  | other (verb : String)
deriving DecidableEq, Repr

/-- An inbound HTTP request as `serve_loop` sees it: `url` is
`request.url()`, `bodyRead` the outcome of `read_to_string` on its body. -/
structure Request where
  method : Method
  url : String
  bodyRead : Except String String
deriving Repr

/-- A response body: `tiny_http::Response::from_string` or `from_data`. -/
inductive RespBody
  | text (s : String)
  | data (bytes : Bytes)
deriving DecidableEq, Repr

/-- An HTTP response: status code (200 when `with_status_code` is not
called), body, and headers added by `with_header`. -/
structure Response where
  status : Nat
  body : RespBody
  headers : List String
deriving DecidableEq, Repr

/-- Trace of the externally observable primitive invocations one request
handling performs, in order. -/
inductive Event
  | lookupWindow (label : String)
  | evalScript (script : String)
  | sleep (ms : Nat)
  | capture
deriving DecidableEq, Repr

/-- Rust `str::split(sep)` on characters, as a structurally recursive
function (so that concrete inputs evaluate in the kernel). `"".split(c)`
yields one empty piece, as in Rust. -/
def splitOnChar (sep : Char) (s : String) : List String :=
  (go s.data).map String.mk
where
  go : List Char → List (List Char)
    | [] => [[]]
    | c :: cs =>
      if c = sep then [] :: go cs
      else
        match go cs with
        | [] => [[c]]
        | p :: ps => (c :: p) :: ps

/-- Rust `str::starts_with` for string patterns. -/
def startsWithStr (pre s : String) : Bool :=
  go pre.data s.data
where
  go : List Char → List Char → Bool
    | [], _ => true
    | _ :: _, [] => false
    | a :: as, b :: bs => a = b && go as bs

/-- Rust byte-slicing `&p[n..]` for an ASCII head, as a character drop. -/
def dropChars (n : Nat) (s : String) : String :=
  String.mk (s.data.drop n)

/-- Whether `c` is an ASCII decimal digit. -/
def isDigitChar (c : Char) : Bool :=
  48 ≤ c.toNat && c.toNat ≤ 57

/-- Rust `str::parse::<u64>().ok()`: an optional leading plus sign, then one
or more decimal digits, value below 2^64; anything else (empty, a minus sign,
non-digits, overflow) is `none`. -/
def parseU64 (s : String) : Option Nat :=
  let t := if startsWithStr "+" s then dropChars 1 s else s
  match t.data with
  | [] => none
  | cs => go cs 0
where
  go : List Char → Nat → Option Nat
    | [], acc => if acc < 2 ^ 64 then some acc else none
    | c :: cs, acc =>
      if isDigitChar c then go cs (acc * 10 + (c.toNat - 48)) else none

/-- Source line 142: `url.split('?').next().unwrap_or(&url)` — the request
path with the query string stripped. -/
def pathOf (url : String) : String :=
  (splitOnChar '?' url).headD url

/-- Source lines 180-187: the `?wait=N` query parameter. The piece of the url
between the first and second `'?'`, split on `'&'`; the first piece starting
with `wait=` has its tail parsed as `u64`; any failure along the way gives
`none`. -/
def wait_ms (url : String) : Option Nat :=
  ((splitOnChar '?' url).get? 1).bind fun qs =>
    ((splitOnChar '&' qs).find? (fun p => startsWithStr "wait=" p)).bind fun p =>
      parseU64 (dropChars 5 p)

/-- The `Content-Type` header attached to successful captures
(source lines 149-151 and 194-196). -/
def pngHeader : String := "Content-Type: image/png"

/-- The fixed usage text returned with status 404 for unknown paths
(source lines 213-218; the Rust string continuations splice the lines). -/
def usage_text : String :=
  "tauri-plugin-screenshot-hd\n\nGET  /screenshot        — capture PNG\nPOST /eval              — run JS in webview\nPOST /eval?wait=<ms>    — run JS, wait, then capture PNG"

/-- The 503 body sent while the window is not resolvable
(source lines 129-132). -/
def not_found_yet_body (label : String) : String :=
  "window '" ++ label ++ "' not found yet — app may still be starting"

/-- The `match path` dispatch of `serve_loop` (source lines 141-222) for an
already-resolved window. `shot` is whichever `take_screenshot` the build
compiled in. Returns the response and the ordered trace of primitive
invocations. -/
def route (shot : Window → Except String Bytes) (w : Window) (req : Request) :
    Response × List Event :=
  if pathOf req.url = "/screenshot" then
    match shot w with
    | .ok bytes => (⟨200, .data bytes, [pngHeader]⟩, [.capture])
    | .error e => (⟨504, .text e, []⟩, [.capture])
  else if pathOf req.url = "/eval" then
    match req.bodyRead with
    | .error e => (⟨400, .text ("read error: " ++ e), []⟩, [])
    | .ok body =>
      match w.evalRes body with
      | .error e => (⟨500, .text ("eval error: " ++ e), []⟩, [.evalScript body])
      | .ok _ =>
        match wait_ms req.url with
        | some ms =>
          match shot w with
          | .ok bytes =>
            (⟨200, .data bytes, [pngHeader]⟩, [.evalScript body, .sleep ms, .capture])
          | .error e =>
            (⟨504, .text e, []⟩, [.evalScript body, .sleep ms, .capture])
        | none => (⟨200, .text "ok", []⟩, [.evalScript body])
  else
    (⟨404, .text usage_text, []⟩, [])

/-- One iteration of `serve_loop` after a request is received (source lines
119-222): the lazy window lookup against the `OnceLock` cell, then the path
dispatch. `lookup` is what `app_handle.get_webview_window(&window_label)`
would return at this instant. Returns the new cell contents, the response,
and the trace. -/
def handle_request (shot : Window → Except String Bytes) (label : String)
    (lookup : Option Window) (cell : Option Window) (req : Request) :
    Option Window × Response × List Event :=
  match cell with
  | some w => (some w, route shot w req)
  | none =>
    match lookup with
    | some w =>
      ((some w, route shot w req).1,
       (route shot w req).1,
       Event.lookupWindow label :: (route shot w req).2)
    | none =>
      (none, ⟨503, .text (not_found_yet_body label), []⟩, [.lookupWindow label])

/-- Iterating `serve_loop` over a finite sequence of received requests, each
paired with the host-application lookup outcome at that instant. Returns the
per-request (response, trace) list and the final cell contents. -/
def serve (shot : Window → Except String Bytes) (label : String)
    (cell : Option Window) :
    List (Option Window × Request) → List (Response × List Event) × Option Window
  | [] => ([], cell)
  | (lookup, req) :: rest =>
    ((handle_request shot label lookup cell req).2 ::
        (serve shot label (handle_request shot label lookup cell req).1 rest).1,
     (serve shot label (handle_request shot label lookup cell req).1 rest).2)

/-- A window whose primitives all succeed; its capture yields `pngBytes`. -/
def pngBytes : Bytes := [137, 80, 78, 71, 13, 10, 26, 10]

def wOk : Window :=
  { evalRes := fun _ => .ok ()
    withWebviewRes := .ok ()
    snapshotCallback := some (.ok pngBytes) }

/-- A window whose script execution fails with a fixed message. -/
def wEvalFail : Window :=
  { evalRes := fun _ => .error "ReferenceError"
    withWebviewRes := .ok ()
    snapshotCallback := some (.ok pngBytes) }

/-- A window whose native snapshot callback never fires within the ceiling. -/
def wHang : Window :=
  { evalRes := fun _ => .ok ()
    withWebviewRes := .ok ()
    snapshotCallback := none }

/-- A plain `GET /screenshot` request. -/
def reqShot : Request :=
  { method := .get, url := "/screenshot", bodyRead := .ok "" }

/-- A `POST /eval?wait=50` request with a successful script body. -/
def reqEvalWait : Request :=
  { method := .post, url := "/eval?wait=50", bodyRead := .ok "doIt()" }

/-! Helper lemmas shared by the claim theorems. -/

/-- The dispatch never performs a window lookup: resolution happens before
routing, so no trace produced by `route` contains a `lookupWindow` event. -/
theorem route_no_lookup (shot : Window → Except String Bytes) (w : Window)
    (req : Request) (lbl : String) :
    Event.lookupWindow lbl ∉ (route shot w req).2 := by
  unfold route
  split
  · split <;> simp
  · split
    · split
      · simp
      · split
        · simp
        · split
          · split <;> simp
          · simp
    · simp

/-- A response body of encoded bytes can only come from a successful call of
the capture primitive, and carries exactly its bytes. -/
theorem route_data_from_shot (shot : Window → Except String Bytes) (w : Window)
    (req : Request) (bytes : Bytes)
    (hdata : (route shot w req).1.body = RespBody.data bytes) :
    shot w = .ok bytes := by
  unfold route at hdata
  split at hdata
  · split at hdata
    next heq => simp at hdata; rwa [hdata] at heq
    next heq => simp at hdata
  · split at hdata
    · split at hdata
      · simp at hdata
      · split at hdata
        · simp at hdata
        · split at hdata
          · split at hdata
            next heq => simp at hdata; rwa [hdata] at heq
            next heq => simp at hdata
          · simp at hdata
    · simp at hdata

/-! Claim theorems. -/

/-- C1: the window handle is resolved lazily and cached only on first
success. Once the cell holds a window, every later request is routed against
that cached window, the cell never changes, and no request performs a host
lookup; while the cell is empty, every request performs a lookup, and the
cell afterwards holds exactly what the lookup returned (so a failed lookup
caches nothing and the next request re-attempts resolution). -/
theorem resolve_once_cache (shot : Window → Except String Bytes) (label : String) :
    (∀ (w : Window) (reqs : List (Option Window × Request)),
        serve shot label (some w) reqs
          = (reqs.map fun p => route shot w p.2, some w)
        ∧ ∀ p ∈ reqs, ∀ lbl, Event.lookupWindow lbl ∉ (route shot w p.2).2)
    ∧ ∀ (lookup : Option Window) (req : Request),
        (handle_request shot label lookup none req).1 = lookup
        ∧ Event.lookupWindow label ∈ (handle_request shot label lookup none req).2.2 := by
  constructor
  · intro w reqs
    constructor
    · induction reqs with
      | nil => rfl
      | cons hd tl ih =>
        obtain ⟨lk, rq⟩ := hd
        simp [serve, handle_request, ih]
    · intro p _ lbl
      exact route_no_lookup shot w p.2 lbl
  · intro lookup req
    cases lookup <;> simp [handle_request]

/-- Witness for C1 at concrete inputs: a resolved cell is reused and kept,
its dispatch performs no lookup, and a request against an empty cell with a
failing lookup caches nothing while attempting a lookup. -/
theorem resolve_once_cache_witness :
    (serve take_screenshot "main" (some wOk) [(none, reqShot)]).2 = some wOk
    ∧ Event.lookupWindow "main" ∉ (route take_screenshot wOk reqShot).2
    ∧ (handle_request take_screenshot "main" none none reqShot).1 = none
    ∧ Event.lookupWindow "main"
        ∈ (handle_request take_screenshot "main" none none reqShot).2.2 := by
  have h := resolve_once_cache take_screenshot "main"
  have h1 := h.1 wOk [(none, reqShot)]
  have h2 := h.2 none reqShot
  exact ⟨by rw [h1.1], h1.2 (none, reqShot) (by simp) "main", h2.1, h2.2⟩

/-- C7: while the window is not resolvable (empty cell, failing lookup),
every request — whatever its method, path or body — is answered with status
503 and the human-readable hint, the cell stays empty, and the trace holds
only the lookup attempt: neither the script-execution nor the capture
primitive is invoked. -/
theorem not_ready_503 (shot : Window → Except String Bytes) (label : String)
    (req : Request) :
    handle_request shot label none none req
      = (none, ⟨503, .text (not_found_yet_body label), []⟩, [.lookupWindow label]) := rfl

/-- C2 counterexample: the claim promises the 404 usage response for unknown
paths regardless of surface state, but a request for `/does-not-exist`
received while the window is unresolvable is answered 503, not 404. -/
theorem unknown_path_counterexample :
    (handle_request take_screenshot "main" none none
        { method := .get, url := "/does-not-exist", bodyRead := .ok "" }).2.1.status = 503
    ∧ (503 : Nat) ≠ 404 := ⟨rfl, by decide⟩

/-- C2 (amended): for every request whose stripped path is neither
`/screenshot` nor `/eval`, provided the window is available (already cached,
or found by this request's lookup), the response is the fixed usage text with
status 404 — regardless of whether the window had been resolved before the
request. -/
theorem unknown_path_usage (shot : Window → Except String Bytes) (label : String)
    (lookup cell : Option Window) (w : Window) (req : Request)
    (hs : pathOf req.url ≠ "/screenshot") (he : pathOf req.url ≠ "/eval")
    (havail : cell = some w ∨ (cell = none ∧ lookup = some w)) :
    (handle_request shot label lookup cell req).2.1
      = ⟨404, .text usage_text, []⟩ := by
  have hroute : ∀ w' : Window, (route shot w' req).1 = ⟨404, .text usage_text, []⟩ := by
    intro w'
    unfold route
    rw [if_neg hs, if_neg he]
  rcases havail with h | ⟨h1, h2⟩
  · subst h
    simpa [handle_request] using hroute w
  · subst h1; subst h2
    simpa [handle_request] using hroute w

/-- Witness for C2 (amended): `/does-not-exist` against a freshly resolved
window yields the 404 usage response. -/
theorem unknown_path_usage_witness :
    (handle_request take_screenshot "main" (some wOk) none
        { method := .get, url := "/does-not-exist", bodyRead := .ok "" }).2.1
      = ⟨404, .text usage_text, []⟩ :=
  unknown_path_usage take_screenshot "main" (some wOk) none wOk
    { method := .get, url := "/does-not-exist", bodyRead := .ok "" }
    (by decide) (by decide) (Or.inr ⟨rfl, rfl⟩)

/-- C3: the capture bridge blocks on the one-shot slot with a fixed ceiling
of 10 seconds; when the native completion callback does not fire within the
ceiling, `take_screenshot` returns the timeout error, and the dispatcher
answers a `/screenshot` request with status 504 carrying that reason. -/
theorem capture_timeout_504 (w : Window) (req : Request)
    (hwv : w.withWebviewRes = .ok ())
    (hcb : w.snapshotCallback = none)
    (hpath : pathOf req.url = "/screenshot") :
    SNAPSHOT_TIMEOUT_SECS = 10
    ∧ take_screenshot w = .error ("snapshot timeout: " ++ recvTimeoutDisplay)
    ∧ (route take_screenshot w req).1
        = ⟨504, .text ("snapshot timeout: " ++ recvTimeoutDisplay), []⟩ := by
  have hshot : take_screenshot w
      = .error ("snapshot timeout: " ++ recvTimeoutDisplay) := by
    simp [take_screenshot, hwv, hcb]
  refine ⟨rfl, hshot, ?_⟩
  simp [route, hpath, hshot]

/-- Witness for C3: a hanging window's `/screenshot` request times out into
a 504 response. -/
theorem capture_timeout_504_witness :
    SNAPSHOT_TIMEOUT_SECS = 10
    ∧ take_screenshot wHang = .error ("snapshot timeout: " ++ recvTimeoutDisplay)
    ∧ (route take_screenshot wHang reqShot).1
        = ⟨504, .text ("snapshot timeout: " ++ recvTimeoutDisplay), []⟩ :=
  capture_timeout_504 wHang reqShot rfl rfl rfl

/-- C4: an `/eval` request (with or without a `wait` parameter) whose script
execution fails is answered 500 with the failure message, and the trace stops
at the script attempt: no sleep and no capture ever happen. -/
theorem eval_failure_no_capture (shot : Window → Except String Bytes)
    (w : Window) (req : Request) (body e : String)
    (hpath : pathOf req.url = "/eval")
    (hbody : req.bodyRead = .ok body)
    (heval : w.evalRes body = .error e) :
    route shot w req
      = (⟨500, .text ("eval error: " ++ e), []⟩, [.evalScript body]) := by
  have hns : pathOf req.url ≠ "/screenshot" := by rw [hpath]; decide
  simp [route, hns, hpath, hbody, heval]

/-- Witness for C4: a failing script on `/eval?wait=100` yields 500 and a
trace with no sleep and no capture. -/
theorem eval_failure_no_capture_witness :
    route take_screenshot wEvalFail
        { method := .post, url := "/eval?wait=100", bodyRead := .ok "boom()" }
      = (⟨500, .text ("eval error: " ++ "ReferenceError"), []⟩,
         [.evalScript "boom()"]) :=
  eval_failure_no_capture take_screenshot wEvalFail
    { method := .post, url := "/eval?wait=100", bodyRead := .ok "boom()" }
    "boom()" "ReferenceError" rfl rfl rfl

/-- C5: an `/eval` request with a parseable `wait=d` whose script succeeds
performs, in strict order, the script execution, then a sleep of exactly `d`
milliseconds, then the capture; the response is the capture's result — 200
with the PNG bytes and the `image/png` marker on success, 504 with the text
reason on capture failure. -/
theorem eval_wait_strict_order (shot : Window → Except String Bytes)
    (w : Window) (req : Request) (body : String) (d : Nat)
    (hpath : pathOf req.url = "/eval")
    (hbody : req.bodyRead = .ok body)
    (heval : w.evalRes body = .ok ())
    (hwait : wait_ms req.url = some d) :
    (route shot w req).2 = [.evalScript body, .sleep d, .capture]
    ∧ (∀ bytes, shot w = .ok bytes →
        (route shot w req).1 = ⟨200, .data bytes, [pngHeader]⟩)
    ∧ ∀ e, shot w = .error e →
        (route shot w req).1 = ⟨504, .text e, []⟩ := by
  have hns : pathOf req.url ≠ "/screenshot" := by rw [hpath]; decide
  have hred : route shot w req
      = (match shot w with
         | .ok bytes =>
           (⟨200, .data bytes, [pngHeader]⟩, [.evalScript body, .sleep d, .capture])
         | .error e =>
           (⟨504, .text e, []⟩, [.evalScript body, .sleep d, .capture])) := by
    simp [route, hns, hpath, hbody, heval, hwait]
  refine ⟨?_, ?_, ?_⟩
  · rw [hred]
    cases hsw : shot w <;> rfl
  · intro bytes hb
    rw [hred, hb]
  · intro e he
    rw [hred, he]

/-- Witness for C5: `/eval?wait=50` with a succeeding script and capture
yields the three-step trace and the 200 PNG response. -/
theorem eval_wait_strict_order_witness :
    (route take_screenshot wOk reqEvalWait).2
      = [.evalScript "doIt()", .sleep 50, .capture]
    ∧ (route take_screenshot wOk reqEvalWait).1
        = ⟨200, .data pngBytes, [pngHeader]⟩ := by
  have h := eval_wait_strict_order take_screenshot wOk reqEvalWait "doIt()" 50
    rfl rfl rfl rfl
  exact ⟨h.1, h.2.1 pngBytes rfl⟩

/-- C6: a `/screenshot` request against a resolved window whose native
capture succeeds is answered 200 with the `image/png` content marker and a
body that is exactly the byte sequence the native primitive produced. -/
theorem screenshot_success_exact (label : String) (lookup : Option Window)
    (w : Window) (req : Request) (bytes : Bytes)
    (hpath : pathOf req.url = "/screenshot")
    (hwv : w.withWebviewRes = .ok ())
    (hcb : w.snapshotCallback = some (.ok bytes)) :
    (handle_request take_screenshot label lookup (some w) req).2
      = (⟨200, .data bytes, [pngHeader]⟩, [.capture]) := by
  have hshot : take_screenshot w = .ok bytes := by
    simp [take_screenshot, hwv, hcb]
  simp [handle_request, route, hpath, hshot]

/-- Witness for C6: a successful native capture returns its bytes verbatim
with the PNG marker. -/
theorem screenshot_success_exact_witness :
    (handle_request take_screenshot "main" none (some wOk) reqShot).2
      = (⟨200, .data pngBytes, [pngHeader]⟩, [.capture]) :=
  screenshot_success_exact "main" none wOk reqShot pngBytes rfl rfl rfl

/-- C8: the dispatcher never inspects the HTTP method — two requests that
differ only in method are handled identically — and any method on the
`/screenshot` path triggers a capture. -/
theorem routing_ignores_method (shot : Window → Except String Bytes)
    (label : String) (lookup cell : Option Window) (w : Window)
    (m m' : Method) (url : String) (bodyRead : Except String String) :
    handle_request shot label lookup cell
        { method := m, url := url, bodyRead := bodyRead }
      = handle_request shot label lookup cell
          { method := m', url := url, bodyRead := bodyRead }
    ∧ (pathOf url = "/screenshot" →
        Event.capture ∈ (route shot w
          { method := m, url := url, bodyRead := bodyRead }).2) := by
  constructor
  · cases cell <;> cases lookup <;> rfl
  · intro hpath
    unfold route
    dsimp only
    rw [if_pos hpath]
    cases hsw : shot w <;> simp

/-- Witness for C8: GET and POST on `/eval?wait=50` are handled identically,
and a DELETE on `/screenshot` still triggers a capture. -/
theorem routing_ignores_method_witness :
    handle_request take_screenshot "main" none (some wOk)
        { method := .get, url := "/eval?wait=50", bodyRead := .ok "doIt()" }
      = handle_request take_screenshot "main" none (some wOk)
          { method := .post, url := "/eval?wait=50", bodyRead := .ok "doIt()" }
    ∧ Event.capture ∈ (route take_screenshot wOk
        { method := .other "DELETE", url := "/screenshot", bodyRead := .ok "" }).2 := by
  have h1 := routing_ignores_method take_screenshot "main" none (some wOk) wOk
    Method.get Method.post "/eval?wait=50" (Except.ok "doIt()")
  have h2 := routing_ignores_method take_screenshot "main" none (some wOk) wOk
    (Method.other "DELETE") Method.post "/screenshot" (Except.ok "")
  exact ⟨h1.1, h2.2 rfl⟩

/-- C9: an `/eval` request whose `wait` parameter is present but fails to
parse as a `u64` (non-numeric or negative text) is treated exactly as if the
parameter were absent: with a succeeding script the response is 200 with body
`ok`, and the trace holds only the script execution — no sleep, no capture,
and no client-error response. -/
theorem wait_unparseable_absent (shot : Window → Except String Bytes)
    (w : Window) (req : Request) (body qs p : String)
    (hpath : pathOf req.url = "/eval")
    (hq : (splitOnChar '?' req.url).get? 1 = some qs)
    (hp : (splitOnChar '&' qs).find? (fun s => startsWithStr "wait=" s) = some p)
    (hparse : parseU64 (dropChars 5 p) = none)
    (hbody : req.bodyRead = .ok body)
    (heval : w.evalRes body = .ok ()) :
    route shot w req = (⟨200, .text "ok", []⟩, [.evalScript body]) := by
  have hwait : wait_ms req.url = none := by
    unfold wait_ms
    rw [hq]
    simp [hp, hparse]
  have hns : pathOf req.url ≠ "/screenshot" := by rw [hpath]; decide
  simp [route, hns, hpath, hbody, heval, hwait]

/-- Witness for C9: `/eval?wait=-5` with a succeeding script answers 200
`ok` without waiting or capturing. -/
theorem wait_unparseable_absent_witness :
    route take_screenshot wOk
        { method := .post, url := "/eval?wait=-5", bodyRead := .ok "doIt()" }
      = (⟨200, .text "ok", []⟩, [.evalScript "doIt()"]) :=
  wait_unparseable_absent take_screenshot wOk
    { method := .post, url := "/eval?wait=-5", bodyRead := .ok "doIt()" }
    "doIt()" "wait=-5" "wait=-5" rfl rfl rfl rfl rfl rfl

/-- C10: on non-macOS builds the capture primitive unconditionally errors,
so `/screenshot` requests and capture-producing `/eval?wait=d` requests are
all answered 504, and no response of such a build ever carries image bytes. -/
theorem non_macos_always_504 (w : Window) (req : Request) :
    take_screenshot_non_macos w = .error non_macos_msg
    ∧ (pathOf req.url = "/screenshot" →
        (route take_screenshot_non_macos w req).1
          = ⟨504, .text non_macos_msg, []⟩)
    ∧ (∀ body d, pathOf req.url = "/eval" → req.bodyRead = .ok body →
        w.evalRes body = .ok () → wait_ms req.url = some d →
        (route take_screenshot_non_macos w req).1
          = ⟨504, .text non_macos_msg, []⟩)
    ∧ ∀ bytes, (route take_screenshot_non_macos w req).1.body
        ≠ RespBody.data bytes := by
  refine ⟨rfl, ?_, ?_, ?_⟩
  · intro hpath
    simp [route, hpath, take_screenshot_non_macos]
  · intro body d hpath hbody heval hwait
    have hns : pathOf req.url ≠ "/screenshot" := by rw [hpath]; decide
    simp [route, hns, hpath, hbody, heval, hwait, take_screenshot_non_macos]
  · intro bytes hdata
    have h := route_data_from_shot take_screenshot_non_macos w req bytes hdata
    simp [take_screenshot_non_macos] at h

/-- Witness for C10: on a non-macOS build, `/screenshot` and `/eval?wait=50`
both answer 504 and the `/screenshot` response carries no image bytes. -/
theorem non_macos_always_504_witness :
    take_screenshot_non_macos wOk = .error non_macos_msg
    ∧ (route take_screenshot_non_macos wOk reqShot).1
        = ⟨504, .text non_macos_msg, []⟩
    ∧ (route take_screenshot_non_macos wOk reqEvalWait).1
        = ⟨504, .text non_macos_msg, []⟩
    ∧ (route take_screenshot_non_macos wOk reqShot).1.body
        ≠ RespBody.data pngBytes := by
  have h1 := non_macos_always_504 wOk reqShot
  have h2 := non_macos_always_504 wOk reqEvalWait
  exact ⟨h1.1, h1.2.1 rfl, h2.2.2.1 "doIt()" 50 rfl rfl rfl rfl, h1.2.2.2 pngBytes⟩
